import Mathlib

/-! shotwell-facedetect: the D-Bus service shell

Shallow embedding of `subprojects/shotwell-facedetect/shotwell-facedetect.cpp`.

* A handler is a function from its arguments (and from the results of the
  library calls it makes) to a `Run`: the sequence of observable calls it
  performed, and how it ended (it returned a value, or it stopped at a fault).
* The service only copies doubles around, it never computes with them, so the
  development is parametric in the type `D` of double values.
* GLib and the detection library are not part of the file: what they return is
  an argument of the handler that calls them.
* A variadic GLib call that reads a gdouble where the program passed a pointer
  yields a double the program does not determine; the handler receives these
  doubles as the argument `fp_slot`, one for each call of
  g_variant_builder_add it makes, counted from 0.
-/

namespace Facedetect

/-! ## Data model -/

/-- The ways in which a handler can stop without returning. -/
inductive Fault
  | uncaught_exception (what : String)
  | empty_vector_back
  | null_error_message
  deriving DecidableEq, Repr

/-- GError: the error object GLib functions hand back through an out-parameter. -/
structure GError where
  code : Int
  message : String
  deriving DecidableEq, Repr

/-- GVariant values of the wire types the service builds: d, b, a? and tuples.
An array remembers the type string it was built with. -/
inductive GVariant (D : Type)
  | double (d : D)
  | boolean (b : Bool)
  | array (type_string : String) (children : List (GVariant D))
  | tuple (children : List (GVariant D))

/-- GVariantBuilder: the container type it was opened with and the children
added so far, oldest first. -/
structure GVariantBuilder (D : Type) where
  type_string : String
  children : List (GVariant D)

/-- The call g_variant_builder_new (type): an empty builder. -/
def g_variant_builder_new {D : Type} (type_string : String) : GVariantBuilder D :=
  ⟨type_string, []⟩

/-- The call g_variant_builder_add (builder, format_string, value). Every call
in the file hands over a pointer to a GVariant. Under a format that begins
with @ that value becomes the last child. Under the format d a gdouble is read
from the variadic arguments instead; the program passed none, so the last
child is the double that the floating-point argument slot held at the call,
fp_slot, whatever the value handed over. -/
def g_variant_builder_add {D : Type} (builder : GVariantBuilder D) (format_string : String)
    (value : GVariant D) (fp_slot : D) : GVariantBuilder D :=
  if format_string = "d" then
    ⟨builder.type_string, builder.children ++ [GVariant.double fp_slot]⟩
  else
    ⟨builder.type_string, builder.children ++ [value]⟩

/-- The call g_variant_new (type, builder) for an array type: the array of the
children of the builder, in the order they were added. -/
def g_variant_new_array {D : Type} (builder : GVariantBuilder D) : GVariant D :=
  GVariant.array builder.type_string builder.children

/-- Modelled from the spec: FaceRect is declared in shotwell-facedetect.hpp, which is
not among the sources. Four coordinates and a feature vector, which may be empty. -/
structure FaceRect (D : Type) where
  x : D
  y : D
  width : D
  height : D
  vec : List D

/-- Severity of a message handed to GLib. -/
inductive LogLevel
  | debug
  | warning
  | error
  | print
  deriving DecidableEq, Repr

/-- One argument of a printf-style message. -/
inductive LogArg (D : Type)
  | str (s : String)
  | dbl (d : D)
  | credentials (uid : Option Nat)

/-- The observable calls the service makes. -/
inductive Effect (D : Type)
  | log (level : LogLevel) (format : String) (args : List (LogArg D))
  | complete_detect_faces (invocation : Nat) (faces : GVariant D)
  | complete_load_net (invocation : Nat) (ret : Bool)
  | complete_face_to_vec (invocation : Nat) (ret : GVariant D)
  | complete_terminate (invocation : Nat)
  | main_loop_quit (loop : Nat)
  | skeleton_export (connection : Nat) (path : String)

/-- One execution of a function of the service: the calls it made, in order,
and either the value it returned or the fault it stopped at. -/
structure Run (D : Type) (α : Type) where
  trace : List (Effect D)
  outcome : Except Fault α

/-- Is this call the completion of a method invocation? -/
def Effect.isCompletion {D : Type} : Effect D → Bool
  | .complete_detect_faces _ _ => true
  | .complete_load_net _ _ => true
  | .complete_face_to_vec _ _ => true
  | .complete_terminate _ => true
  | _ => false

/-- Is this call the request to stop the run loop? -/
def Effect.isQuit {D : Type} : Effect D → Bool
  | .main_loop_quit _ => true
  | _ => false

/-- The object path the interface is exported at. -/
def FACEDETECT_PATH : String := "/org/gnome/shotwell/faces"

/-- The well-known bus name. -/
def FACEDETECT_INTERFACE_NAME : String := "org.gnome.Shotwell.Faces1"

/-! ## detect-faces -/

/-- Lines 31-36: the inner loop. For every value of the vector, line 33 makes
the GVariant d of the value and line 34 hands it to g_variant_builder_add
under the format d; the array is made from the builder. calls counts the calls
of g_variant_builder_add made so far and is returned updated. -/
def encode_vec {D : Type} (fp_slot : Nat → D) (calls : Nat) (vec : List D) :
    GVariant D × Nat :=
  let filled := vec.foldl
    (fun (state : GVariantBuilder D × Nat) (v : D) =>
      (g_variant_builder_add state.1 "d" (GVariant.double v) (fp_slot state.2), state.2 + 1))
    (g_variant_builder_new "ad", calls)
  (g_variant_new_array filled.1, filled.2)

/-- Lines 31-38: the vector array and then the tuple (dddd@ad) of one rectangle. -/
def encode_rect {D : Type} (fp_slot : Nat → D) (calls : Nat) (r : FaceRect D) :
    GVariant D × Nat :=
  let vec := encode_vec fp_slot calls r.vec
  (GVariant.tuple [GVariant.double r.x, GVariant.double r.y, GVariant.double r.width,
    GVariant.double r.height, vec.1], vec.2)

/-- Lines 30-41: the loop over the rectangles. One turn adds the tuple of the
rectangle to the builder under the format @(ddddad) and then evaluates the
arguments of g_debug, among them r->vec.back(), which has no value on an empty
vector. -/
def detect_faces_loop {D : Type} (fp_slot : Nat → D) :
    List (FaceRect D) → GVariantBuilder D → Nat → List (Effect D) →
      GVariantBuilder D × List (Effect D) × Option Fault
  | [], builder, _, trace => (builder, trace, none)
  | r :: rest, builder, calls, trace =>
    let rect := encode_rect fp_slot calls r
    let builder1 := g_variant_builder_add builder "@(ddddad)" rect.1 (fp_slot rect.2)
    match r.vec.getLast? with
    | none => (builder1, trace, some Fault.empty_vector_back)
    | some last =>
      detect_faces_loop fp_slot rest builder1 (rect.2 + 1)
        (trace ++ [Effect.log LogLevel.debug "Returning %f,%f-%f"
          [LogArg.dbl r.x, LogArg.dbl r.y, LogArg.dbl last]])

/-- Lines 18-48. The detection collaborator either returns a list or throws;
the handler has no try block, so what is thrown leaves the handler. -/
def on_handle_detect_faces {D : Type}
    (detectFaces : String → String → D → Bool → Except String (List (FaceRect D)))
    (fp_slot : Nat → D)
    (invocation : Nat) (arg_image arg_cascade : String) (arg_scale : D) (arg_infer : Bool) :
    Run D Bool :=
  match detectFaces arg_image arg_cascade arg_scale arg_infer with
  | .error what => ⟨[], .error (Fault.uncaught_exception what)⟩
  | .ok rects =>
    match detect_faces_loop fp_slot rects (g_variant_builder_new "a(ddddad)") 0 [] with
    | (_, trace, some fault) => ⟨trace, .error fault⟩
    | (builder, trace, none) =>
      ⟨trace ++ [Effect.complete_detect_faces invocation (g_variant_new_array builder)],
        .ok true⟩

/-! ## load-net, face-to-vec, terminate -/

/-- Lines 50-58. -/
def on_handle_load_net {D : Type} (loadNet : String → Except String Bool)
    (invocation : Nat) (arg_net : String) : Run D Bool :=
  match loadNet arg_net with
  | .error what => ⟨[], .error (Fault.uncaught_exception what)⟩
  | .ok ret => ⟨[Effect.complete_load_net invocation ret], .ok true⟩

/-- Lines 60-76. For every value of the vector, line 68 makes the GVariant d
of the value and line 69 hands it to g_variant_builder_add under the format d;
the array is made from the builder and the invocation is completed with it. -/
def on_handle_face_to_vec {D : Type} (faceToVec : String → Except String (List D))
    (fp_slot : Nat → D) (invocation : Nat) (arg_image : String) : Run D Bool :=
  match faceToVec arg_image with
  | .error what => ⟨[], .error (Fault.uncaught_exception what)⟩
  | .ok vec =>
    let filled := vec.foldl
      (fun (state : GVariantBuilder D × Nat) (r : D) =>
        (g_variant_builder_add state.1 "d" (GVariant.double r) (fp_slot state.2), state.2 + 1))
      (g_variant_builder_new "ad", 0)
    let ret := g_variant_new_array filled.1
    ⟨[Effect.complete_face_to_vec invocation ret], .ok true⟩

/-- Lines 78-86; user_data is the run loop. -/
def on_handle_terminate {D : Type} (invocation : Nat) (user_data : Nat) : Run D Bool :=
  ⟨[Effect.log LogLevel.debug "Exiting..." [],
    Effect.complete_terminate invocation,
    Effect.main_loop_quit user_data], .ok true⟩

/-! ## Bus name callbacks -/

/-- Lines 88-104. The four handlers are connected to the new skeleton (the
terminate handler with user_data, the run loop) and the skeleton is exported;
export_error is what g_dbus_interface_skeleton_export left in its error
out-parameter. -/
def on_name_acquired {D : Type} (export_error : Option GError)
    (connection : Nat) (name : String) : Run D Unit :=
  let trace := [Effect.log LogLevel.debug "Got name %s" [LogArg.str name],
    Effect.skeleton_export connection FACEDETECT_PATH]
  match export_error with
  | some error =>
    ⟨trace ++ [Effect.log LogLevel.print "Failed to export interface: %s"
      [LogArg.str error.message]], .ok ()⟩
  | none => ⟨trace, .ok ()⟩

/-- Lines 106-114; user_data is the run loop. -/
def on_name_lost {D : Type} (connection : Option Nat) (name : String) (user_data : Nat) :
    Run D Unit :=
  match connection with
  | none =>
    ⟨[Effect.log LogLevel.debug "Unable to establish connection for name %s" [LogArg.str name],
      Effect.main_loop_quit user_data], .ok ()⟩
  | some _ =>
    ⟨[Effect.log LogLevel.debug "Connection for name %s disconnected" [LogArg.str name],
      Effect.main_loop_quit user_data], .ok ()⟩

/-! ## Peer authorization -/

/-- GCredentials: the identity of a process. -/
structure GCredentials where
  uid : Nat
  deriving DecidableEq, Repr

/-- Lines 123-156. g_credentials_new gives the credentials of the service
process; g_credentials_is_same_user gives its return value and what it left in
the error out-parameter. On a false return the handler reads error->message
without testing error. -/
def on_authorize_authenticated_peer {D : Type}
    (g_credentials_new : GCredentials)
    (g_credentials_is_same_user : GCredentials → GCredentials → Bool × Option GError)
    (credentials : Option GCredentials) : Run D Bool :=
  let trace := [Effect.log LogLevel.debug "Authorizing peer with credentials %s\n"
    [LogArg.credentials (credentials.map GCredentials.uid)]]
  match credentials with
  | none => ⟨trace, .ok false⟩
  | some peer =>
    let own_credentials := g_credentials_new
    match g_credentials_is_same_user peer own_credentials with
    | (true, _) => ⟨trace, .ok true⟩
    | (false, none) => ⟨trace, .error Fault.null_error_message⟩
    | (false, some error) =>
      ⟨trace ++ [Effect.log LogLevel.warning "Unable to authorize peer: %s"
        [LogArg.str error.message]], .ok false⟩

/-! ## The process -/

/-- What the run loop dispatches: a bus name callback or a method call, each
with what the library calls made by its handler give back. There is no
callback for on_authorize_authenticated_peer: its only use is at lines
182-183, on the observer of a connection that is opened with
G_DBUS_CONNECTION_FLAGS_AUTHENTICATION_CLIENT, and the authorize signal
belongs to the server side of an authentication. -/
inductive Callback (D : Type)
  | name_acquired (connection : Nat) (name : String) (export_error : Option GError)
  | name_lost (connection : Option Nat) (name : String)
  | handle_detect_faces (invocation : Nat) (arg_image arg_cascade : String) (arg_scale : D)
      (arg_infer : Bool) (detected : Except String (List (FaceRect D))) (fp_slot : Nat → D)
  | handle_load_net (invocation : Nat) (arg_net : String) (loaded : Except String Bool)
  | handle_face_to_vec (invocation : Nat) (arg_image : String)
      (embedded : Except String (List D)) (fp_slot : Nat → D)
  | handle_terminate (invocation : Nat)

/-- The calls one dispatched callback makes, whether it asked the loop to
stop, and the fault it stopped at, if any. -/
def dispatch {D : Type} (loop : Nat) : Callback D → List (Effect D) × Option Fault
  | .name_acquired connection name export_error =>
    ((on_name_acquired export_error connection name).trace, none)
  | .name_lost connection name => ((on_name_lost connection name loop).trace, none)
  | .handle_detect_faces invocation image cascade scale infer detected fp_slot =>
    let run := on_handle_detect_faces (fun _ _ _ _ => detected) fp_slot invocation image cascade
      scale infer
    (run.trace, match run.outcome with | .error f => some f | .ok _ => none)
  | .handle_load_net invocation net loaded =>
    let run : Run D Bool := on_handle_load_net (fun _ => loaded) invocation net
    (run.trace, match run.outcome with | .error f => some f | .ok _ => none)
  | .handle_face_to_vec invocation image embedded fp_slot =>
    let run := on_handle_face_to_vec (fun _ => embedded) fp_slot invocation image
    (run.trace, match run.outcome with | .error f => some f | .ok _ => none)
  | .handle_terminate invocation =>
    ((on_handle_terminate invocation loop : Run D Bool).trace, none)

/-- How the process ends. -/
inductive ProcessEnd
  | exit (status : Int)
  | abort
  | fault (f : Fault)
  | waiting
  deriving DecidableEq, Repr

/-- The call g_main_loop_run (loop): callbacks are dispatched one at a time
until one of them has asked the loop to stop. The result is none when the loop
returned, and otherwise says why it did not: a handler stopped at a fault, or
every callback is dispatched and the loop waits for more. -/
def g_main_loop_run {D : Type} (loop : Nat) :
    List (Callback D) → List (Effect D) → List (Effect D) × Option ProcessEnd
  | [], trace => (trace, some ProcessEnd.waiting)
  | callback :: rest, trace =>
    match dispatch loop callback with
    | (calls, some f) => (trace ++ calls, some (ProcessEnd.fault f))
    | (calls, none) =>
      if calls.any Effect.isQuit then (trace ++ calls, none)
      else g_main_loop_run loop rest (trace ++ calls)

/-- Lines 158-202. parsed is the outcome of g_option_context_parse: an error,
or the value of the address option; connect is
g_dbus_connection_new_for_address_sync, giving the connection and the error
out-parameter; callbacks is what the bus delivers while the loop runs.
g_error is fatal: it aborts the process. -/
def main {D : Type} (argv0 : String) (parsed : Except GError (Option String))
    (connect : String → Option Nat × Option GError) (export_error : Option GError)
    (loop : Nat) (callbacks : List (Callback D)) : List (Effect D) × ProcessEnd :=
  match parsed with
  | .error error =>
    ([Effect.log LogLevel.print "Failed to parse options: %s\n" [LogArg.str error.message]],
      ProcessEnd.exit 1)
  | .ok address =>
    let started : List (Effect D) × Option GError :=
      match address with
      | none =>
        ([Effect.log LogLevel.debug "Starting %s on G_BUS_TYPE_SESSION" [LogArg.str argv0]], none)
      | some addr =>
        let trace := [Effect.log LogLevel.debug "Starting %s on %s"
          [LogArg.str argv0, LogArg.str addr]]
        match connect addr with
        | (some connection, error) =>
          (trace ++ (on_name_acquired export_error connection FACEDETECT_INTERFACE_NAME).trace,
            error)
        | (none, error) => (trace, error)
    match started with
    | (trace, some error) =>
      (trace ++ [Effect.log LogLevel.error "Failed to get connection on %s bus: %s"
        [LogArg.str (if address = none then "session" else "private"),
         LogArg.str error.message]], ProcessEnd.abort)
    | (trace, none) =>
      match g_main_loop_run loop callbacks trace with
      | (trace1, some stopped) => (trace1, stopped)
      | (trace1, none) => (trace1, ProcessEnd.exit 0)

/-- Is this call the debug message with which on_authorize_authenticated_peer begins? -/
def Effect.isAuthorize {D : Type} : Effect D → Bool
  | .log _ format _ => format = "Authorizing peer with credentials %s\n"
  | _ => false

/-! ## General facts about the builders and the detect-faces loop -/

/-- Adding the values of a vector under the format d appends one double for
every value, in order: the doubles of the floating-point slot at those calls,
not the values. -/
theorem foldl_builder_add_d {D : Type} (fp_slot : Nat → D) (vec : List D)
    (builder : GVariantBuilder D) (calls : Nat) :
    vec.foldl
        (fun (state : GVariantBuilder D × Nat) (v : D) =>
          (g_variant_builder_add state.1 "d" (GVariant.double v) (fp_slot state.2),
            state.2 + 1))
        (builder, calls)
      = (⟨builder.type_string,
            builder.children
              ++ (List.range' calls vec.length).map (fun i => GVariant.double (fp_slot i))⟩,
          calls + vec.length) := by
  induction vec generalizing builder calls with
  | nil => simp
  | cons v rest ih =>
    rw [List.foldl_cons, ih]
    simp [g_variant_builder_add, List.range'_succ]
    omega

/-- The array built for a vector has one double for every value of the vector. -/
theorem encode_vec_eq {D : Type} (fp_slot : Nat → D) (calls : Nat) (vec : List D) :
    encode_vec fp_slot calls vec
      = (GVariant.array "ad"
          ((List.range' calls vec.length).map (fun i => GVariant.double (fp_slot i))),
          calls + vec.length) := by
  simp [encode_vec, foldl_builder_add_d, g_variant_new_array, g_variant_builder_new]

/-- The tuple built for a rectangle carries its four coordinates and a vector
array with one double for every value of its vector. -/
theorem encode_rect_eq {D : Type} (fp_slot : Nat → D) (calls : Nat) (r : FaceRect D) :
    encode_rect fp_slot calls r
      = (GVariant.tuple [GVariant.double r.x, GVariant.double r.y, GVariant.double r.width,
          GVariant.double r.height,
          GVariant.array "ad"
            ((List.range' calls r.vec.length).map (fun i => GVariant.double (fp_slot i)))],
          calls + r.vec.length) := by
  simp [encode_rect, encode_vec_eq]

/-- When no vector is empty the loop runs to its end: the builder has received
one tuple for every rectangle, in order, each with the coordinates of its
rectangle and a vector array as long as its vector, and only debug messages
were emitted. -/
theorem detect_faces_loop_of_nonempty {D : Type} (fp_slot : Nat → D)
    (rects : List (FaceRect D)) (h : ∀ r ∈ rects, r.vec ≠ [])
    (builder : GVariantBuilder D) (calls : Nat) (trace : List (Effect D)) :
    ∃ (logs : List (Effect D)) (children : List (GVariant D)),
      logs.all (fun e => !e.isCompletion) = true ∧
      List.Forall₂
        (fun (r : FaceRect D) (child : GVariant D) =>
          ∃ values : List D, values.length = r.vec.length ∧
            child = GVariant.tuple [GVariant.double r.x, GVariant.double r.y,
              GVariant.double r.width, GVariant.double r.height,
              GVariant.array "ad" (values.map GVariant.double)])
        rects children ∧
      detect_faces_loop fp_slot rects builder calls trace
        = (⟨builder.type_string, builder.children ++ children⟩, trace ++ logs, none) := by
  induction rects generalizing builder calls trace with
  | nil => exact ⟨[], [], by simp, List.Forall₂.nil, by simp [detect_faces_loop]⟩
  | cons r rest ih =>
    have hr : r.vec ≠ [] := h r (List.mem_cons_self _ _)
    obtain ⟨last, hlast⟩ : ∃ last, r.vec.getLast? = some last := by
      cases hv : r.vec.getLast? with
      | none => exact absurd (List.getLast?_eq_none_iff.mp hv) hr
      | some last => exact ⟨last, rfl⟩
    obtain ⟨logs, children, hall, hshape, hrun⟩ :=
      ih (fun q hq => h q (List.mem_cons_of_mem _ hq))
        (g_variant_builder_add builder "@(ddddad)" (encode_rect fp_slot calls r).1
          (fp_slot (encode_rect fp_slot calls r).2))
        ((encode_rect fp_slot calls r).2 + 1)
        (trace ++ [Effect.log LogLevel.debug "Returning %f,%f-%f"
          [LogArg.dbl r.x, LogArg.dbl r.y, LogArg.dbl last]])
    refine ⟨Effect.log LogLevel.debug "Returning %f,%f-%f"
      [LogArg.dbl r.x, LogArg.dbl r.y, LogArg.dbl last] :: logs,
      (encode_rect fp_slot calls r).1 :: children, ?_, ?_, ?_⟩
    · simpa [Effect.isCompletion] using hall
    · refine List.Forall₂.cons ?_ hshape
      refine ⟨(List.range' calls r.vec.length).map fp_slot, by simp, ?_⟩
      simp [encode_rect_eq]
    · simp only [detect_faces_loop, hlast, hrun]
      have hfmt : ("@(ddddad)" : String) ≠ "d" := by decide
      simp [g_variant_builder_add, hfmt]

/-- When some vector is empty the loop stops at the first such rectangle, at
the read of the last element of its vector. -/
theorem detect_faces_loop_of_empty {D : Type} (fp_slot : Nat → D)
    (rects : List (FaceRect D)) (h : ∃ r ∈ rects, r.vec = [])
    (builder : GVariantBuilder D) (calls : Nat) (trace : List (Effect D)) :
    ∃ (stopped : GVariantBuilder D) (logs : List (Effect D)),
      logs.all (fun e => !e.isCompletion) = true ∧
      detect_faces_loop fp_slot rects builder calls trace
        = (stopped, trace ++ logs, some Fault.empty_vector_back) := by
  induction rects generalizing builder calls trace with
  | nil => obtain ⟨r, hr, _⟩ := h; cases hr
  | cons r rest ih =>
    cases hv : r.vec.getLast? with
    | none =>
      exact ⟨g_variant_builder_add builder "@(ddddad)" (encode_rect fp_slot calls r).1
        (fp_slot (encode_rect fp_slot calls r).2), [], by simp,
        by simp [detect_faces_loop, hv]⟩
    | some last =>
      have hne : r.vec ≠ [] := by
        intro h0
        rw [h0] at hv
        simp at hv
      have hrest : ∃ q ∈ rest, q.vec = [] := by
        obtain ⟨q, hq, hq0⟩ := h
        rcases List.mem_cons.mp hq with rfl | hq1
        · exact absurd hq0 hne
        · exact ⟨q, hq1, hq0⟩
      obtain ⟨stopped, logs, hall, hrun⟩ :=
        ih hrest
          (g_variant_builder_add builder "@(ddddad)" (encode_rect fp_slot calls r).1
            (fp_slot (encode_rect fp_slot calls r).2))
          ((encode_rect fp_slot calls r).2 + 1)
          (trace ++ [Effect.log LogLevel.debug "Returning %f,%f-%f"
            [LogArg.dbl r.x, LogArg.dbl r.y, LogArg.dbl last]])
      refine ⟨stopped, Effect.log LogLevel.debug "Returning %f,%f-%f"
        [LogArg.dbl r.x, LogArg.dbl r.y, LogArg.dbl last] :: logs, ?_, ?_⟩
      · simpa [Effect.isCompletion] using hall
      · simp only [detect_faces_loop, hv, hrun]
        simp

/-- The handler on a list without empty vectors: it emits debug messages, then
completes the invocation once, with an array of one tuple for every rectangle,
in the order of the list, each with the coordinates of its rectangle and a
vector array as long as its vector, and returns TRUE. -/
theorem on_handle_detect_faces_of_nonempty {D : Type}
    (detectFaces : String → String → D → Bool → Except String (List (FaceRect D)))
    (fp_slot : Nat → D)
    (invocation : Nat) (arg_image arg_cascade : String) (arg_scale : D) (arg_infer : Bool)
    (rects : List (FaceRect D))
    (hdet : detectFaces arg_image arg_cascade arg_scale arg_infer = .ok rects)
    (h : ∀ r ∈ rects, r.vec ≠ []) :
    ∃ (logs : List (Effect D)) (children : List (GVariant D)),
      logs.all (fun e => !e.isCompletion) = true ∧
      List.Forall₂
        (fun (r : FaceRect D) (child : GVariant D) =>
          ∃ values : List D, values.length = r.vec.length ∧
            child = GVariant.tuple [GVariant.double r.x, GVariant.double r.y,
              GVariant.double r.width, GVariant.double r.height,
              GVariant.array "ad" (values.map GVariant.double)])
        rects children ∧
      on_handle_detect_faces detectFaces fp_slot invocation arg_image arg_cascade arg_scale
          arg_infer
        = ⟨logs ++ [Effect.complete_detect_faces invocation
              (GVariant.array "a(ddddad)" children)], .ok true⟩ := by
  obtain ⟨logs, children, hall, hshape, hrun⟩ :=
    detect_faces_loop_of_nonempty fp_slot rects h (g_variant_builder_new "a(ddddad)") 0 []
  refine ⟨logs, children, hall, hshape, ?_⟩
  simp only [on_handle_detect_faces, hdet, hrun]
  simp [g_variant_new_array, g_variant_builder_new]

/-- The handler on a list with an empty vector: it stops at the read of the
last element of that vector, and has not completed the invocation. -/
theorem on_handle_detect_faces_of_empty {D : Type}
    (detectFaces : String → String → D → Bool → Except String (List (FaceRect D)))
    (fp_slot : Nat → D)
    (invocation : Nat) (arg_image arg_cascade : String) (arg_scale : D) (arg_infer : Bool)
    (rects : List (FaceRect D))
    (hdet : detectFaces arg_image arg_cascade arg_scale arg_infer = .ok rects)
    (h : ∃ r ∈ rects, r.vec = []) :
    ∃ logs : List (Effect D), logs.all (fun e => !e.isCompletion) = true ∧
      on_handle_detect_faces detectFaces fp_slot invocation arg_image arg_cascade arg_scale
          arg_infer
        = ⟨logs, .error Fault.empty_vector_back⟩ := by
  obtain ⟨stopped, logs, hall, hrun⟩ :=
    detect_faces_loop_of_empty fp_slot rects h (g_variant_builder_new "a(ddddad)") 0 []
  refine ⟨logs, hall, ?_⟩
  simp only [on_handle_detect_faces, hdet, hrun]
  simp

/-- The handler on the empty list: the invocation is completed with the empty array. -/
theorem on_handle_detect_faces_of_nil {D : Type}
    (detectFaces : String → String → D → Bool → Except String (List (FaceRect D)))
    (fp_slot : Nat → D)
    (invocation : Nat) (arg_image arg_cascade : String) (arg_scale : D) (arg_infer : Bool)
    (hdet : detectFaces arg_image arg_cascade arg_scale arg_infer = .ok []) :
    on_handle_detect_faces detectFaces fp_slot invocation arg_image arg_cascade arg_scale
        arg_infer
      = ⟨[Effect.complete_detect_faces invocation (GVariant.array "a(ddddad)" [])],
          .ok true⟩ := by
  simp [on_handle_detect_faces, hdet, detect_faces_loop, g_variant_new_array,
    g_variant_builder_new]

/-- The reply of face-to-vec, whatever the vector: one call, the completion,
with an array of as many doubles as the vector has values; these are the
doubles of the floating-point slot at the calls of g_variant_builder_add. -/
theorem on_handle_face_to_vec_of_ok {D : Type} (faceToVec : String → Except String (List D))
    (fp_slot : Nat → D) (invocation : Nat) (arg_image : String) (vec : List D)
    (hvec : faceToVec arg_image = .ok vec) :
    on_handle_face_to_vec faceToVec fp_slot invocation arg_image
      = ⟨[Effect.complete_face_to_vec invocation
            (GVariant.array "ad"
              ((List.range' 0 vec.length).map (fun i => GVariant.double (fp_slot i))))],
          .ok true⟩ := by
  simp [on_handle_face_to_vec, hvec, foldl_builder_add_d, g_variant_new_array,
    g_variant_builder_new]

/-- The detect-faces loop adds no message of the authorization handler. -/
theorem detect_faces_loop_no_authorize {D : Type} (fp_slot : Nat → D)
    (rects : List (FaceRect D)) (builder : GVariantBuilder D) (calls : Nat)
    (trace : List (Effect D)) (h : trace.all (fun e => !e.isAuthorize) = true) :
    (detect_faces_loop fp_slot rects builder calls trace).2.1.all
      (fun e => !e.isAuthorize) = true := by
  induction rects generalizing builder calls trace with
  | nil => simpa [detect_faces_loop] using h
  | cons r rest ih =>
    cases hv : r.vec.getLast? with
    | none => simpa [detect_faces_loop, hv] using h
    | some last =>
      simp only [detect_faces_loop, hv]
      apply ih
      rw [List.all_append, h]
      rfl

/-- No callback of the run loop runs the authorization handler. -/
theorem dispatch_no_authorize {D : Type} (loop : Nat) (callback : Callback D) :
    (dispatch loop callback).1.all (fun e => !e.isAuthorize) = true := by
  cases callback with
  | name_acquired connection name export_error =>
    cases export_error <;> rfl
  | name_lost connection name =>
    cases connection <;> rfl
  | handle_detect_faces invocation image cascade scale infer detected fp_slot =>
    cases detected with
    | error what => rfl
    | ok rects =>
      have hloop := detect_faces_loop_no_authorize fp_slot rects
        (g_variant_builder_new "a(ddddad)") 0 [] rfl
      simp only [dispatch, on_handle_detect_faces]
      rcases hrun : detect_faces_loop fp_slot rects (g_variant_builder_new "a(ddddad)") 0 []
        with ⟨stopped, trace, fault⟩
      rw [hrun] at hloop
      cases fault with
      | none => simpa [Effect.isAuthorize] using hloop
      | some f => simpa using hloop
  | handle_load_net invocation net loaded =>
    cases loaded <;> rfl
  | handle_face_to_vec invocation image embedded fp_slot =>
    cases embedded <;> rfl
  | handle_terminate invocation => rfl

/-- The run loop adds no message of the authorization handler. -/
theorem g_main_loop_run_no_authorize {D : Type} (loop : Nat) (callbacks : List (Callback D))
    (trace : List (Effect D)) (h : trace.all (fun e => !e.isAuthorize) = true) :
    (g_main_loop_run loop callbacks trace).1.all (fun e => !e.isAuthorize) = true := by
  induction callbacks generalizing trace with
  | nil => simpa [g_main_loop_run] using h
  | cons callback rest ih =>
    have hd := dispatch_no_authorize loop callback
    rcases hrun : dispatch loop callback with ⟨calls, fault⟩
    rw [hrun] at hd
    have happ : (trace ++ calls).all (fun e => !e.isAuthorize) = true := by
      rw [List.all_append, h, hd]
      rfl
    cases fault with
    | some f => simpa [g_main_loop_run, hrun] using happ
    | none =>
      simp only [g_main_loop_run, hrun]
      split
      · exact happ
      · exact ih _ happ

/-- The process never runs the authorization handler, in either mode and
whatever the bus delivers: no call of main is the debug message with which
on_authorize_authenticated_peer begins. -/
theorem main_never_authorizes {D : Type} (argv0 : String)
    (parsed : Except GError (Option String))
    (connect : String → Option Nat × Option GError) (export_error : Option GError)
    (loop : Nat) (callbacks : List (Callback D)) :
    (main argv0 parsed connect export_error loop callbacks).1.all
      (fun e => !e.isAuthorize) = true := by
  cases parsed with
  | error error => rfl
  | ok address =>
    cases address with
    | none =>
      have hloop := g_main_loop_run_no_authorize loop callbacks
        [Effect.log LogLevel.debug "Starting %s on G_BUS_TYPE_SESSION" [LogArg.str argv0]] rfl
      simp only [main]
      rcases hrun : g_main_loop_run loop callbacks
        [Effect.log LogLevel.debug "Starting %s on G_BUS_TYPE_SESSION" [LogArg.str argv0]]
        with ⟨trace1, stopped⟩
      rw [hrun] at hloop
      cases stopped <;> simpa using hloop
    | some addr =>
      simp only [main]
      rcases hconn : connect addr with ⟨connection, error⟩
      cases connection with
      | none =>
        cases error with
        | some e => rfl
        | none =>
          have hloop := g_main_loop_run_no_authorize loop callbacks
            [Effect.log LogLevel.debug "Starting %s on %s" [LogArg.str argv0, LogArg.str addr]]
            rfl
          simp only []
          rcases hrun : g_main_loop_run loop callbacks
            [Effect.log LogLevel.debug "Starting %s on %s" [LogArg.str argv0, LogArg.str addr]]
            with ⟨trace1, stopped⟩
          rw [hrun] at hloop
          cases stopped <;> simpa using hloop
      | some c =>
        have hacq : ([Effect.log LogLevel.debug "Starting %s on %s"
            [LogArg.str argv0, LogArg.str addr]]
            ++ (on_name_acquired export_error c FACEDETECT_INTERFACE_NAME : Run D Unit).trace).all
              (fun e => !e.isAuthorize) = true := by
          cases export_error <;> rfl
        cases error with
        | some e =>
          simp only []
          rw [List.all_append, hacq]
          rfl
        | none =>
          have hloop := g_main_loop_run_no_authorize loop callbacks _ hacq
          simp only []
          rcases hrun : g_main_loop_run loop callbacks
            ([Effect.log LogLevel.debug "Starting %s on %s"
              [LogArg.str argv0, LogArg.str addr]]
              ++ (on_name_acquired export_error c FACEDETECT_INTERFACE_NAME : Run D Unit).trace)
            with ⟨trace1, stopped⟩
          rw [hrun] at hloop
          cases stopped <;> simpa using hloop

/-- A comparison that returns FALSE and sets no error makes the authorization
handler read the message of the absent error, whatever the credentials: it
stops there and returns nothing. -/
theorem authorize_reads_message_of_absent_error {D : Type} (own peer : GCredentials) :
    (on_authorize_authenticated_peer own (fun _ _ => (false, none)) (some peer) :
        Run D Bool).outcome = .error Fault.null_error_message := by
  rfl

/-! ## The claims -/

/-- C2, at the input where it fails: the detector returns one rectangle whose
vector is empty. The handler stops at the read of the last element of that
vector; no call was made, so no reply was built and handed to the completion. -/
theorem detect_faces_one_empty_vector_no_reply (fp_slot : Nat → ℚ) :
    on_handle_detect_faces (fun _ _ _ _ => .ok [⟨(10 : ℚ), 20, 30, 40, []⟩]) fp_slot
        7 "photo.jpg" "haar_default" (11 / 10) false
      = ⟨[], .error Fault.empty_vector_back⟩ := by
  rfl

/-- C3, at the input where it fails: a list of one rectangle with an empty
vector and the longer list that adds a second rectangle give the same run,
which hands no wire array to the completion; nothing is produced from which
the client could tell the two lists apart, or rebuild either. -/
theorem detect_faces_empty_vector_lists_not_told_apart (fp_slot : Nat → ℚ) :
    [(⟨10, 20, 30, 40, []⟩ : FaceRect ℚ)] ≠ [⟨10, 20, 30, 40, []⟩, ⟨1, 2, 3, 4, [5, 6]⟩] ∧
    on_handle_detect_faces (fun _ _ _ _ => .ok [⟨(10 : ℚ), 20, 30, 40, []⟩]) fp_slot
        7 "photo.jpg" "haar_default" (11 / 10) true
      = on_handle_detect_faces
          (fun _ _ _ _ => .ok [⟨(10 : ℚ), 20, 30, 40, []⟩, ⟨1, 2, 3, 4, [5, 6]⟩]) fp_slot
          7 "photo.jpg" "haar_default" (11 / 10) true ∧
    (on_handle_detect_faces (fun _ _ _ _ => .ok [⟨(10 : ℚ), 20, 30, 40, []⟩]) fp_slot
        7 "photo.jpg" "haar_default" (11 / 10) true).trace.all
          (fun e => !e.isCompletion) = true := by
  refine ⟨?_, rfl, rfl⟩
  intro h
  simp at h

/-- C4: the calls of the terminate handler are, in this order, some calls that
are neither a completion nor a quit request, the completion of the invocation,
more such calls, the quit request on the run loop, and more such calls. So the
invocation is completed exactly once, the quit request is always issued, and
the completion comes first. The handler returns TRUE. -/
theorem terminate_completes_then_quits {D : Type} (invocation loop : Nat) :
    ∃ before between after : List (Effect D),
      (on_handle_terminate invocation loop : Run D Bool).trace
        = before ++ [Effect.complete_terminate invocation] ++ between
            ++ [Effect.main_loop_quit loop] ++ after ∧
      (before ++ between ++ after).all (fun e => !e.isCompletion && !e.isQuit) = true ∧
      ((on_handle_terminate invocation loop : Run D Bool).trace.countP
        Effect.isCompletion = 1) ∧
      (on_handle_terminate invocation loop : Run D Bool).outcome = .ok true := by
  refine ⟨[Effect.log LogLevel.debug "Exiting..." []], [], [], rfl, rfl, rfl, rfl⟩

/-- C5, refuted as stated: when the detection collaborator throws, the handler
makes no call at all, so it does not complete the invocation with the empty
list, and what was thrown leaves the handler. -/
theorem detect_faces_raise_is_not_completed :
    on_handle_detect_faces
        (fun _ _ _ _ => (.error "cv::Exception" : Except String (List (FaceRect ℚ))))
        (fun _ => 0) 7 "photo.jpg" "haar_default" (11 / 10) false
      = ⟨[], .error (Fault.uncaught_exception "cv::Exception")⟩ ∧
    Effect.complete_detect_faces 7 (GVariant.array "a(ddddad)" []) ∉
      (on_handle_detect_faces
        (fun _ _ _ _ => (.error "cv::Exception" : Except String (List (FaceRect ℚ))))
        (fun _ => 0) 7 "photo.jpg" "haar_default" (11 / 10) false).trace := by
  refine ⟨rfl, ?_⟩
  intro h
  cases h

/-- C5 as amended: whenever the detection collaborator throws, the handler
makes no call, so the invocation is not completed and no reply is sent, and
what was thrown leaves the handler. -/
theorem detect_faces_raise_leaves_handler {D : Type}
    (detectFaces : String → String → D → Bool → Except String (List (FaceRect D)))
    (fp_slot : Nat → D)
    (invocation : Nat) (arg_image arg_cascade : String) (arg_scale : D) (arg_infer : Bool)
    (what : String)
    (hdet : detectFaces arg_image arg_cascade arg_scale arg_infer = .error what) :
    on_handle_detect_faces detectFaces fp_slot invocation arg_image arg_cascade arg_scale
        arg_infer
      = ⟨[], .error (Fault.uncaught_exception what)⟩ := by
  simp [on_handle_detect_faces, hdet]

/-- The amended C5 at a collaborator that throws on every image. -/
theorem detect_faces_raise_leaves_handler_witness :
    on_handle_detect_faces
        (fun _ _ _ _ => (.error "cv::Exception" : Except String (List (FaceRect ℚ))))
        (fun _ => 0) 3 "missing.jpg" "haar_default" 2 true
      = ⟨[], .error (Fault.uncaught_exception "cv::Exception")⟩ :=
  detect_faces_raise_leaves_handler
    (fun _ _ _ _ => (.error "cv::Exception" : Except String (List (FaceRect ℚ))))
    (fun _ => 0) 3 "missing.jpg" "haar_default" 2 true "cv::Exception" rfl

/-- C6, refuted as stated: with the negative scale -1 and a collaborator that
finds no face, the handler completes the invocation normally, with the empty
result list. -/
theorem detect_faces_negative_scale_is_completed :
    (-1 : ℚ) < 0 ∧
    on_handle_detect_faces (fun _ _ _ _ => (.ok [] : Except String (List (FaceRect ℚ))))
        (fun _ => 0) 7 "photo.jpg" "haar_default" (-1) false
      = ⟨[Effect.complete_detect_faces 7 (GVariant.array "a(ddddad)" [])], .ok true⟩ := by
  refine ⟨by decide, rfl⟩

/-- C6 as amended: a negative scale is handled like any other. The handler
hands it unchanged to the detection collaborator and, when the collaborator
returns a list without empty vectors, it emits debug messages and then
completes the invocation normally, once, with an array of one tuple for every
rectangle of that list, in order, each with the coordinates of its rectangle
and a vector array as long as its vector; it returns TRUE and sends no error
reply. -/
theorem detect_faces_negative_scale_unchecked {D : Type} [LT D] [Zero D]
    (detectFaces : String → String → D → Bool → Except String (List (FaceRect D)))
    (fp_slot : Nat → D)
    (invocation : Nat) (arg_image arg_cascade : String) (arg_scale : D) (arg_infer : Bool)
    (rects : List (FaceRect D))
    (_hneg : arg_scale < 0)
    (hdet : detectFaces arg_image arg_cascade arg_scale arg_infer = .ok rects)
    (hvec : ∀ r ∈ rects, r.vec ≠ []) :
    ∃ (logs : List (Effect D)) (children : List (GVariant D)),
      logs.all (fun e => !e.isCompletion) = true ∧
      List.Forall₂
        (fun (r : FaceRect D) (child : GVariant D) =>
          ∃ values : List D, values.length = r.vec.length ∧
            child = GVariant.tuple [GVariant.double r.x, GVariant.double r.y,
              GVariant.double r.width, GVariant.double r.height,
              GVariant.array "ad" (values.map GVariant.double)])
        rects children ∧
      on_handle_detect_faces detectFaces fp_slot invocation arg_image arg_cascade arg_scale
          arg_infer
        = ⟨logs ++ [Effect.complete_detect_faces invocation
              (GVariant.array "a(ddddad)" children)], .ok true⟩ :=
  on_handle_detect_faces_of_nonempty detectFaces fp_slot invocation arg_image arg_cascade
    arg_scale arg_infer rects hdet hvec

/-- The amended C6 at scale -1 and a collaborator that finds one face. -/
theorem detect_faces_negative_scale_unchecked_witness :
    (-1 : ℚ) < 0 ∧
    ∃ (logs : List (Effect ℚ)) (children : List (GVariant ℚ)),
      logs.all (fun e => !e.isCompletion) = true ∧
      List.Forall₂
        (fun (r : FaceRect ℚ) (child : GVariant ℚ) =>
          ∃ values : List ℚ, values.length = r.vec.length ∧
            child = GVariant.tuple [GVariant.double r.x, GVariant.double r.y,
              GVariant.double r.width, GVariant.double r.height,
              GVariant.array "ad" (values.map GVariant.double)])
        [⟨(10 : ℚ), 20, 30, 40, [5, 6]⟩] children ∧
      on_handle_detect_faces (fun _ _ _ _ => .ok [⟨(10 : ℚ), 20, 30, 40, [5, 6]⟩])
          (fun _ => 0) 7 "photo.jpg" "haar_default" (-1) true
        = ⟨logs ++ [Effect.complete_detect_faces 7
              (GVariant.array "a(ddddad)" children)], .ok true⟩ :=
  ⟨by decide,
    detect_faces_negative_scale_unchecked
      (fun _ _ _ _ => .ok [⟨(10 : ℚ), 20, 30, 40, [5, 6]⟩]) (fun _ => 0)
      7 "photo.jpg" "haar_default" (-1) true [⟨(10 : ℚ), 20, 30, 40, [5, 6]⟩]
      (by decide) rfl (by simp)⟩

/-- C7, refuted as stated: in default-bus mode (no address option), when the
first callback is name-lost with no connection, the run loop returns and main
returns 0. -/
theorem main_name_lost_without_connection_returns_zero :
    (main "shotwell-facedetect" (.ok none) (fun _ => (none, none)) none 1
        [(Callback.name_lost none FACEDETECT_INTERFACE_NAME : Callback ℚ)]).2
      = ProcessEnd.exit 0 := by
  rfl

/-- C7 as amended. Direct-address mode: when opening the connection gives no
connection and sets an error, the fatal error message aborts the process
before the run loop is entered, so main does not return. Default-bus mode:
when name-lost is delivered with no connection, the callback asks the run
loop to stop and main returns 0. -/
theorem main_connection_failure {D : Type} (argv0 : String) (addr : String) (error : GError)
    (connect : String → Option Nat × Option GError) (export_error : Option GError)
    (loop : Nat) (name : String) (callbacks : List (Callback D)) :
    (main argv0 (.ok (some addr)) (fun _ => (none, some error)) export_error loop
        callbacks).2 = ProcessEnd.abort ∧
    (main argv0 (.ok none) connect export_error loop
        (Callback.name_lost none name :: callbacks)).2 = ProcessEnd.exit 0 := by
  constructor
  · simp [main]
  · simp [main, g_main_loop_run, dispatch, on_name_lost, Effect.isQuit]

/-- C8, at the input where it fails, the scenario of the spec: the detector
finds two faces and infers no vector. The handler reads the last element of
the empty vector of the first face and stops there; it has made no call, so
the invocation is not completed and no reply of two entries is sent. -/
theorem detect_faces_two_faces_without_vectors (fp_slot : Nat → ℚ) :
    on_handle_detect_faces
        (fun _ _ _ _ => .ok [⟨(10 : ℚ), 20, 30, 40, []⟩, ⟨50, 60, 70, 80, []⟩]) fp_slot
        7 "photo.jpg" "haar_default" (11 / 10) false
      = ⟨[], .error Fault.empty_vector_back⟩ := by
  rfl

/-- C9, at the input where it fails: the embedding collaborator returns the
vector 1, 2, 3, and at the three calls of g_variant_builder_add the
floating-point slot holds 0, 2 and 3. The invocation is completed once, with
an array of three doubles, but the first is 0 and not the first value of the
vector: the reply does not have the value of the vector at every index. -/
theorem face_to_vec_reply_differs_from_vector :
    on_handle_face_to_vec (fun _ => .ok [(1 : ℚ), 2, 3]) (fun i => [(0 : ℚ), 2, 3].getD i 0)
        7 "face.jpg"
      = ⟨[Effect.complete_face_to_vec 7
            (GVariant.array "ad"
              [GVariant.double 0, GVariant.double 2, GVariant.double 3])], .ok true⟩ ∧
    (GVariant.array "ad" [GVariant.double 0, GVariant.double 2, GVariant.double 3] :
        GVariant ℚ)
      ≠ GVariant.array "ad" ([(1 : ℚ), 2, 3].map GVariant.double) := by
  refine ⟨rfl, ?_⟩
  intro h
  simp at h

end Facedetect
